import Mathlib

/-!
Shallow embedding of the rent-vs-buy simulator core
(`src/simulator/models.py` and `src/simulator/engine.py`).

Python floats are modelled as rationals (`ℚ`), so every arithmetic
identity below is exact.  Month indices are natural numbers; the
configured duration is an integer (Python `int`), negative values
included, so that validation can be stated on the full input domain.
-/

/-- Input parameters, mirroring the `SimulationConfig` dataclass fields
(`models.py`). -/
structure SimulationConfig where
  duration_years : ℤ
  property_price : ℚ
  down_payment_pct : ℚ
  mortgage_rate_annual : ℚ
  property_appreciation_annual : ℚ
  equity_growth_annual : ℚ
  monthly_rent : ℚ
  rent_inflation_rate : ℚ

/-- The conjunction of the constraints checked by
`SimulationConfig.__post_init__`. -/
def validConfig (cfg : SimulationConfig) : Prop :=
  0 < cfg.duration_years ∧ 0 < cfg.property_price ∧
    0 ≤ cfg.down_payment_pct ∧ cfg.down_payment_pct ≤ 100 ∧
    0 ≤ cfg.mortgage_rate_annual ∧ 0 < cfg.monthly_rent

/-- Constructor-with-validation, mirroring `SimulationConfig.__post_init__`:
the checks run in source order and the first failing check raises, so no
object is produced.  `Except.error` carries the `ValueError` message. -/
def mkSimulationConfig (d : ℤ) (price dpct rate appr eq rent rinfl : ℚ) :
    Except String SimulationConfig :=
  if d ≤ 0 then .error "duration_years must be positive"
  else if price ≤ 0 then .error "property_price must be positive"
  else if ¬(0 ≤ dpct ∧ dpct ≤ 100) then
    .error "down_payment_pct must be between 0 and 100"
  else if rate < 0 then .error "mortgage_rate_annual cannot be negative"
  else if rent ≤ 0 then .error "monthly_rent must be positive"
  else .ok ⟨d, price, dpct, rate, appr, eq, rent, rinfl⟩

/-- `n_months = config.duration_years * 12` (`engine.py`). -/
def nMonths (cfg : SimulationConfig) : ℕ := (cfg.duration_years * 12).toNat

/-- `down_payment = property_price * (down_payment_pct / 100)`. -/
def downPayment (cfg : SimulationConfig) : ℚ :=
  cfg.property_price * (cfg.down_payment_pct / 100)

/-- `loan_amount = property_price - down_payment`. -/
def loanAmount (cfg : SimulationConfig) : ℚ :=
  cfg.property_price - downPayment cfg

/-- `monthly_rate = (mortgage_rate_annual / 100) / 12`. -/
def monthlyRate (cfg : SimulationConfig) : ℚ :=
  cfg.mortgage_rate_annual / 100 / 12

/-- The fixed monthly mortgage payment.  When `monthly_rate > 0` and
`loan_amount > 0` this is `-npf.pmt(monthly_rate, n_months, loan_amount)`,
i.e. the annuity payment `L·r·(1+r)^n / ((1+r)^n − 1)`; otherwise the
straight-line fallback `loan_amount / n_months` (or `0` when
`n_months = 0`). -/
def monthlyPayment (cfg : SimulationConfig) : ℚ :=
  if 0 < monthlyRate cfg ∧ 0 < loanAmount cfg then
    loanAmount cfg * monthlyRate cfg * (1 + monthlyRate cfg) ^ nMonths cfg /
      ((1 + monthlyRate cfg) ^ nMonths cfg - 1)
  else if 0 < nMonths cfg then loanAmount cfg / (nMonths cfg : ℚ) else 0

/-- `monthly_appreciation_rate = (property_appreciation_annual / 100) / 12`. -/
def monthlyAppreciationRate (cfg : SimulationConfig) : ℚ :=
  cfg.property_appreciation_annual / 100 / 12

/-- `home_value = property_price * (1 + monthly_appreciation_rate) ** month`. -/
def homeValue (cfg : SimulationConfig) (m : ℕ) : ℚ :=
  cfg.property_price * (1 + monthlyAppreciationRate cfg) ^ m

/-- Remaining mortgage balance at month `i`: the engine computes
`-npf.pv(monthly_rate, remaining_months, monthly_payment)` when
`remaining_months > 0 and monthly_rate > 0`, and `0` otherwise.
The present value of `rem` payments of `P` at rate `r` is
`P·((1+r)^rem − 1) / (r·(1+r)^rem)`. -/
def mortgageBalance (cfg : SimulationConfig) (i : ℕ) : ℚ :=
  if 0 < nMonths cfg - i ∧ 0 < monthlyRate cfg then
    monthlyPayment cfg * ((1 + monthlyRate cfg) ^ (nMonths cfg - i) - 1) /
      (monthlyRate cfg * (1 + monthlyRate cfg) ^ (nMonths cfg - i))
  else 0

/-- `cum_mortgage_outflow = down_payment + monthly_payment * month_arr`. -/
def cumMortgageOutflow (cfg : SimulationConfig) (m : ℕ) : ℚ :=
  downPayment cfg + monthlyPayment cfg * m

/-- `net_val_buy = home_value - cum_mortgage_outflow`. -/
def netValBuy (cfg : SimulationConfig) (m : ℕ) : ℚ :=
  homeValue cfg m - cumMortgageOutflow cfg m

/-- `monthly_equity_rate = (equity_growth_annual / 100) / 12`. -/
def monthlyEquityRate (cfg : SimulationConfig) : ℚ :=
  cfg.equity_growth_annual / 100 / 12

/-- `equity_value = down_payment * (1 + monthly_equity_rate) ** month`. -/
def equityValue (cfg : SimulationConfig) (m : ℕ) : ℚ :=
  downPayment cfg * (1 + monthlyEquityRate cfg) ^ m

/-- `monthly_rent_inflation = (rent_inflation_rate / 100) / 12`
(note: the config field is already a fraction, the engine divides by 100
again; the embedding reproduces that arithmetic exactly). -/
def monthlyRentInflation (cfg : SimulationConfig) : ℚ :=
  cfg.rent_inflation_rate / 100 / 12

/-- `rent_at_month = monthly_rent * (1 + monthly_rent_inflation) ** month`. -/
def rentAtMonth (cfg : SimulationConfig) (m : ℕ) : ℚ :=
  cfg.monthly_rent * (1 + monthlyRentInflation cfg) ^ m

/-- Cumulative rent outflow.  The engine computes
`np.concatenate([[0], np.cumsum(rent_at_month)[:-1]])`, i.e. entry `m`
is the running sum of `rent_at_month` over months `0..m−1`, entry `0`
being `0`; as a function of the index this is the recurrence below. -/
def cumRentOutflow (cfg : SimulationConfig) : ℕ → ℚ
  | 0 => 0
  | m + 1 => cumRentOutflow cfg m + rentAtMonth cfg m

/-- `net_val_rent = equity_value - cum_rent_outflow`. -/
def netValRent (cfg : SimulationConfig) (m : ℕ) : ℚ :=
  equityValue cfg m - cumRentOutflow cfg m

/-- `scenario_c_enabled = monthly_payment > config.monthly_rent`. -/
def scenarioCEnabled (cfg : SimulationConfig) : Bool :=
  decide (cfg.monthly_rent < monthlyPayment cfg)

/-- `monthly_savings = np.maximum(0, monthly_payment - rent_at_month)`. -/
def monthlySavings (cfg : SimulationConfig) (m : ℕ) : ℚ :=
  max 0 (monthlyPayment cfg - rentAtMonth cfg m)

/-- The savings-portfolio loop of the engine:
`savings_portfolio[0] = 0` and
`savings_portfolio[t] = savings_portfolio[t-1]*(1+monthly_equity_rate)
 + monthly_savings[t-1]` for `t ≥ 1`. -/
def savingsPortfolio (cfg : SimulationConfig) : ℕ → ℚ
  | 0 => 0
  | t + 1 =>
      savingsPortfolio cfg t * (1 + monthlyEquityRate cfg) + monthlySavings cfg t

/-- `asset_value_rent_savings = down_payment + savings_portfolio`. -/
def assetValueRentSavings (cfg : SimulationConfig) (m : ℕ) : ℚ :=
  downPayment cfg + savingsPortfolio cfg m

/-- `net_val_rent_savings = asset_value_rent_savings - cum_rent_outflow`. -/
def netValRentSavings (cfg : SimulationConfig) (m : ℕ) : ℚ :=
  assetValueRentSavings cfg m - cumRentOutflow cfg m

/-- `np.sign` on an exact rational. -/
def qsign (x : ℚ) : ℤ :=
  if x < 0 then -1 else if x = 0 then 0 else 1

/-- Index of the first adjacent pair with differing signs: the engine's
`np.where(np.diff(np.sign(diff)) != 0)[0]`, first entry. -/
def firstCross : List ℚ → Option ℕ
  | a :: b :: rest =>
      if qsign a ≠ qsign b then some 0
      else (firstCross (b :: rest)).map (fun k => k + 1)
  | _ => none

/-- The linear-interpolation formula
`x1 - y1 * (x2 - x1) / (y2 - y1)` of `_find_breakeven`. -/
def interpolate (x1 x2 y1 y2 : ℚ) : ℚ :=
  x1 - y1 * (x2 - x1) / (y2 - y1)

/-- `diff = net_buy - net_rent`, the elementwise difference of the two
net-value sequences. -/
def diffList (netBuy netRent : List ℚ) : List ℚ :=
  List.zipWith (fun a b => a - b) netBuy netRent

/-- `_find_breakeven(years, net_buy, net_rent)` (`engine.py`): when the
scan finds a first crossover index, interpolate (or return the left grid
year when the two difference values are equal); otherwise `None`. -/
def findBreakeven (years netBuy netRent : List ℚ) : Option ℚ :=
  (firstCross (diffList netBuy netRent)).map (fun idx =>
    if (diffList netBuy netRent).getD (idx + 1) 0 ≠
        (diffList netBuy netRent).getD idx 0 then
      interpolate (years.getD idx 0) (years.getD (idx + 1) 0)
        ((diffList netBuy netRent).getD idx 0)
        ((diffList netBuy netRent).getD (idx + 1) 0)
    else years.getD idx 0)

/-- `year_arr = month_arr / 12` as a list over the month grid. -/
def yearList (cfg : SimulationConfig) : List ℚ :=
  (List.range (nMonths cfg + 1)).map (fun m => (m : ℚ) / 12)

/-- The `Net_Buy` column as a list over the month grid. -/
def netBuyList (cfg : SimulationConfig) : List ℚ :=
  (List.range (nMonths cfg + 1)).map (netValBuy cfg)

/-- The `Net_Rent` column as a list over the month grid. -/
def netRentList (cfg : SimulationConfig) : List ℚ :=
  (List.range (nMonths cfg + 1)).map (netValRent cfg)

/-- The `Net_Rent_Savings` column as a list over the month grid. -/
def netRentSavingsList (cfg : SimulationConfig) : List ℚ :=
  (List.range (nMonths cfg + 1)).map (netValRentSavings cfg)

/-- `breakeven_year = _find_breakeven(year_arr, net_val_buy, net_val_rent)`. -/
def breakevenYear (cfg : SimulationConfig) : Option ℚ :=
  findBreakeven (yearList cfg) (netBuyList cfg) (netRentList cfg)

/-- `final_net_rent_savings`: the last `Net_Rent_Savings` entry when
Scenario C is enabled, `None` otherwise. -/
def finalNetRentSavings (cfg : SimulationConfig) : Option ℚ :=
  if scenarioCEnabled cfg then some (netValRentSavings cfg (nMonths cfg)) else none

/-- `breakeven_year_vs_rent_savings`: the A-vs-C breakeven when Scenario C
is enabled, `None` otherwise. -/
def breakevenYearVsRentSavings (cfg : SimulationConfig) : Option ℚ :=
  if scenarioCEnabled cfg then
    findBreakeven (yearList cfg) (netBuyList cfg) (netRentSavingsList cfg)
  else none

/-- One row of the trajectory `DataFrame` built by the engine. -/
structure Row where
  month : ℕ
  year : ℚ
  homeValue : ℚ
  equityValue : ℚ
  mortgageBalance : ℚ
  outflowBuy : ℚ
  outflowRent : ℚ
  netBuy : ℚ
  netRent : ℚ
  savingsPortfolioValue : ℚ
  netRentSavings : ℚ

/-- The trajectory row at month `m`, with every column as the engine
computes it. -/
def mkRow (cfg : SimulationConfig) (m : ℕ) : Row :=
  { month := m
    year := (m : ℚ) / 12
    homeValue := homeValue cfg m
    equityValue := equityValue cfg m
    mortgageBalance := mortgageBalance cfg m
    outflowBuy := cumMortgageOutflow cfg m
    outflowRent := cumRentOutflow cfg m
    netBuy := netValBuy cfg m
    netRent := netValRent cfg m
    savingsPortfolioValue := savingsPortfolio cfg m
    netRentSavings := netValRentSavings cfg m }

/-- The full trajectory: one row per month index `0..n_months`. -/
def trajectory (cfg : SimulationConfig) : List Row :=
  (List.range (nMonths cfg + 1)).map (mkRow cfg)

/-- The column names of the `pd.DataFrame` the engine builds
(`engine.py` lines 167-181); the list is the same for every config. -/
def trajectoryColumns : List String :=
  ["Month", "Year", "Home_Value", "Equity_Value", "Mortgage_Balance",
   "Outflow_Buy", "Outflow_Rent", "Net_Buy", "Net_Rent",
   "Savings_Portfolio_Value", "Net_Rent_Savings"]

/-- The fields of the `SimulationResults` dataclass as declared in
`models.py` (lines 196-200). -/
def simulationResultsFields : List String :=
  ["data", "final_net_buy", "final_net_rent", "final_difference",
   "breakeven_year"]

/-- The keyword arguments `calculate_scenarios` passes to the
`SimulationResults` constructor in its return statement
(`engine.py` lines 191-201). -/
def calculateScenariosReturnKwargs : List String :=
  ["data", "final_net_buy", "final_net_rent", "final_difference",
   "breakeven_year", "monthly_mortgage_payment", "scenario_c_enabled",
   "final_net_rent_savings", "breakeven_year_vs_rent_savings"]

/-- If the first-crossing scan returns index `i`, then `i+1` is within the
list and the signs at `i` and `i+1` really differ. -/
theorem firstCross_spec : ∀ (l : List ℚ) (i : ℕ), firstCross l = some i →
    i + 1 < l.length ∧ qsign (l.getD i 0) ≠ qsign (l.getD (i + 1) 0)
  | [], i, h => by simp [firstCross] at h
  | [a], i, h => by simp [firstCross] at h
  | a :: b :: rest, i, h => by
    simp only [firstCross] at h
    by_cases hab : qsign a ≠ qsign b
    · rw [if_pos hab] at h
      obtain rfl : (0 : ℕ) = i := Option.some.inj h
      exact ⟨by simp, by simpa using hab⟩
    · rw [if_neg hab] at h
      obtain ⟨j, hj, rfl⟩ := Option.map_eq_some'.mp h
      have IH := firstCross_spec (b :: rest) j hj
      refine ⟨?_, ?_⟩
      · have := IH.1
        simp only [List.length_cons] at this ⊢
        omega
      · simpa using IH.2

/-- Conversely, if signs first differ at the pair `(i, i+1)`, the scan
returns `i`. -/
theorem firstCross_eq_some : ∀ (l : List ℚ) (i : ℕ),
    i + 1 < l.length →
    qsign (l.getD i 0) ≠ qsign (l.getD (i + 1) 0) →
    (∀ j, j < i → qsign (l.getD j 0) = qsign (l.getD (j + 1) 0)) →
    firstCross l = some i
  | [], i, hlen, _, _ => by simp at hlen
  | [a], i, hlen, _, _ => by simp at hlen
  | a :: b :: rest, 0, hlen, hch, hfirst => by
    simp only [firstCross]
    rw [if_pos (by simpa using hch)]
  | a :: b :: rest, i + 1, hlen, hch, hfirst => by
    have h0 : qsign a = qsign b := by simpa using hfirst 0 (by omega)
    have hab : ¬ qsign a ≠ qsign b := not_not_intro h0
    simp only [firstCross]
    rw [if_neg hab]
    have IH := firstCross_eq_some (b :: rest) i
      (by simp only [List.length_cons] at hlen ⊢; omega)
      (by simpa using hch)
      (fun j hj => by simpa using hfirst (j + 1) (by omega))
    rw [IH]
    rfl

/-- Claim C10: at the first sign-change pair found by the breakeven
locator the two difference values are necessarily distinct (equal values
have equal signs), so the interpolation denominator `diff[i+1] − diff[i]`
is nonzero and the equal-values fallback branch that returns `year[i]` is
unreachable: the locator always returns the interpolated crossing. -/
theorem breakeven_denominator_nonzero (years netBuy netRent : List ℚ) (i : ℕ)
    (h : firstCross (diffList netBuy netRent) = some i) :
    (diffList netBuy netRent).getD (i + 1) 0 ≠ (diffList netBuy netRent).getD i 0 ∧
      findBreakeven years netBuy netRent =
        some (interpolate (years.getD i 0) (years.getD (i + 1) 0)
          ((diffList netBuy netRent).getD i 0)
          ((diffList netBuy netRent).getD (i + 1) 0)) := by
  have hs := firstCross_spec _ _ h
  have hne : (diffList netBuy netRent).getD (i + 1) 0 ≠
      (diffList netBuy netRent).getD i 0 :=
    fun he => hs.2 (congrArg qsign he.symm)
  refine ⟨hne, ?_⟩
  simp only [findBreakeven, h, Option.map_some']
  rw [if_pos hne]

/-- Witness for C10 at a concrete input: diff = [-1, 2] changes sign at
index 0, the two diff values differ, and the result is the interpolated
crossing 1/3. -/
theorem breakeven_denominator_nonzero_witness :
    ((2 : ℚ) ≠ -1) ∧ findBreakeven [0, 1] [1, 3] [2, 1] = some (1/3) := by
  have h := breakeven_denominator_nonzero [0, 1] [1, 3] [2, 1] 0
    (by norm_num [diffList, firstCross, qsign])
  refine ⟨by norm_num, ?_⟩
  rw [h.2]
  norm_num [diffList, interpolate]

/-- Claim C6: if the difference of two equal-length net-value sequences
first changes sign at the pair `(i, i+1)`, the locator reports exactly
that pair: the interpolated year `year[i] − diff[i]·(year[i+1]−year[i])
/(diff[i+1]−diff[i])` when the two difference values differ, `year[i]`
when they are equal; later crossings are ignored. -/
theorem breakeven_reports_first_crossing (years netBuy netRent : List ℚ) (i : ℕ)
    (hlen : i + 1 < (diffList netBuy netRent).length)
    (hch : qsign ((diffList netBuy netRent).getD i 0) ≠
      qsign ((diffList netBuy netRent).getD (i + 1) 0))
    (hfirst : ∀ j, j < i → qsign ((diffList netBuy netRent).getD j 0) =
      qsign ((diffList netBuy netRent).getD (j + 1) 0)) :
    findBreakeven years netBuy netRent =
      if (diffList netBuy netRent).getD i 0 ≠ (diffList netBuy netRent).getD (i + 1) 0
      then some (interpolate (years.getD i 0) (years.getD (i + 1) 0)
        ((diffList netBuy netRent).getD i 0)
        ((diffList netBuy netRent).getD (i + 1) 0))
      else some (years.getD i 0) := by
  have h := firstCross_eq_some _ _ hlen hch hfirst
  have hne : (diffList netBuy netRent).getD (i + 1) 0 ≠
      (diffList netBuy netRent).getD i 0 :=
    fun he => hch (congrArg qsign he.symm)
  simp only [findBreakeven, h, Option.map_some']
  rw [if_pos hne, if_pos (Ne.symm hne)]

/-- Witness for C6 at a concrete input: diff = [-5, 5] changes sign at
index 0 and the interpolated crossing is 1/2. -/
theorem breakeven_reports_first_crossing_witness :
    findBreakeven [0, 1] [0, 10] [5, 5] = some (1/2) := by
  have h := breakeven_reports_first_crossing [0, 1] [0, 10] [5, 5] 0
    (by norm_num [diffList])
    (by norm_num [diffList, qsign])
    (by omega)
  rw [h]
  norm_num [diffList, interpolate]

/-- Claim C2 (evaluation of the code at the spec's example): on the
no-crossover example `years = [0..5]`, `buy = [0,10,20,30,40,50]`,
`alt = [0,5,10,15,20,25]` the locator does NOT return null: the
difference is 0 at the first grid point and positive afterwards, the
0-to-positive transition counts as a sign change at index 0, and the
interpolation returns year 0. -/
theorem findBreakeven_zero_boundary :
    findBreakeven [0, 1, 2, 3, 4, 5] [0, 10, 20, 30, 40, 50]
      [0, 5, 10, 15, 20, 25] = some 0 := by
  norm_num [findBreakeven, diffList, firstCross, qsign, interpolate]

/-- The shifted cumulative sum computed by the engine is the prefix sum
of the rent series: entry `m` is the rent due at months `0..m−1`. -/
theorem cumRentOutflow_eq_sum (cfg : SimulationConfig) (m : ℕ) :
    cumRentOutflow cfg m = ∑ k in Finset.range m, rentAtMonth cfg k := by
  induction m with
  | zero => simp [cumRentOutflow]
  | succ n ih => rw [cumRentOutflow, ih, Finset.sum_range_succ]

/-- Partial sums of a geometric series with ratio at least `-1` are
nonnegative (pair consecutive terms). -/
theorem geom_sum_range_nonneg {q : ℚ} (hq : -1 ≤ q) :
    ∀ m : ℕ, 0 ≤ ∑ k in Finset.range m, q ^ k ∧
      0 ≤ ∑ k in Finset.range (m + 1), q ^ k
  | 0 => ⟨le_refl 0, by simp⟩
  | m + 1 => by
    obtain ⟨h1, h2⟩ := geom_sum_range_nonneg hq m
    refine ⟨h2, ?_⟩
    rcases Nat.even_or_odd (m + 1) with he | ho
    · rw [Finset.sum_range_succ]
      have hp : 0 ≤ q ^ (m + 1) := he.pow_nonneg q
      linarith
    · have hme : Even m := by
        rcases ho with ⟨j, hj⟩
        exact ⟨j, by omega⟩
      have hp : 0 ≤ q ^ m := hme.pow_nonneg q
      have hprod : (0 : ℚ) ≤ q ^ m * (1 + q) := mul_nonneg hp (by linarith)
      have hexp : q ^ m * (1 + q) = q ^ m + q ^ m * q := by ring
      rw [Finset.sum_range_succ, Finset.sum_range_succ, pow_succ]
      linarith

/-- The down payment is nonnegative for a valid config. -/
theorem downPayment_nonneg (cfg : SimulationConfig) (hv : validConfig cfg) :
    0 ≤ downPayment cfg := by
  obtain ⟨_, hp, hd0, _, _, _⟩ := hv
  exact mul_nonneg hp.le (by positivity)

/-- The loan amount is nonnegative for a valid config. -/
theorem loanAmount_nonneg (cfg : SimulationConfig) (hv : validConfig cfg) :
    0 ≤ loanAmount cfg := by
  obtain ⟨_, hp, hd0, hd100, _, _⟩ := hv
  have h1 : cfg.down_payment_pct / 100 ≤ 1 := by linarith
  have h2 : cfg.property_price * (cfg.down_payment_pct / 100) ≤
      cfg.property_price * 1 := by
    exact mul_le_mul_of_nonneg_left h1 hp.le
  unfold loanAmount downPayment
  linarith

/-- The monthly payment is nonnegative for a valid config. -/
theorem monthlyPayment_nonneg (cfg : SimulationConfig) (hv : validConfig cfg) :
    0 ≤ monthlyPayment cfg := by
  unfold monthlyPayment
  split_ifs with h1 h2
  · obtain ⟨hr, hL⟩ := h1
    have hnum : 0 ≤ loanAmount cfg * monthlyRate cfg *
        (1 + monthlyRate cfg) ^ nMonths cfg := by positivity
    have hden : (0 : ℚ) ≤ (1 + monthlyRate cfg) ^ nMonths cfg - 1 := by
      have : (1 : ℚ) ≤ (1 + monthlyRate cfg) ^ nMonths cfg :=
        one_le_pow₀ (by linarith)
      linarith
    exact div_nonneg hnum hden
  · exact div_nonneg (loanAmount_nonneg cfg hv) (by positivity)
  · exact le_refl 0

/-- Mapping a function over `range (n+1)` ends at `f n`. -/
theorem getLast_map_range {α : Type} (n : ℕ) (f : ℕ → α) :
    ((List.range (n + 1)).map f).getLast? = some (f n) := by
  rw [List.range_succ, List.map_append]
  simp

/-- Claim C8: config construction either yields a fully valid object
carrying exactly the supplied field values or fails atomically with the
error of the FIRST violated constraint, checked in the order
duration → price → down-payment-pct → mortgage-rate → rent; the
appreciation and equity-growth rates are accepted without any range
check. -/
theorem mkSimulationConfig_validation
    (d : ℤ) (price dpct rate appr eq rent rinfl : ℚ) :
    (d ≤ 0 → mkSimulationConfig d price dpct rate appr eq rent rinfl =
      .error "duration_years must be positive") ∧
    (0 < d → price ≤ 0 →
      mkSimulationConfig d price dpct rate appr eq rent rinfl =
        .error "property_price must be positive") ∧
    (0 < d → 0 < price → ¬(0 ≤ dpct ∧ dpct ≤ 100) →
      mkSimulationConfig d price dpct rate appr eq rent rinfl =
        .error "down_payment_pct must be between 0 and 100") ∧
    (0 < d → 0 < price → 0 ≤ dpct → dpct ≤ 100 → rate < 0 →
      mkSimulationConfig d price dpct rate appr eq rent rinfl =
        .error "mortgage_rate_annual cannot be negative") ∧
    (0 < d → 0 < price → 0 ≤ dpct → dpct ≤ 100 → 0 ≤ rate → rent ≤ 0 →
      mkSimulationConfig d price dpct rate appr eq rent rinfl =
        .error "monthly_rent must be positive") ∧
    (0 < d → 0 < price → 0 ≤ dpct → dpct ≤ 100 → 0 ≤ rate → 0 < rent →
      mkSimulationConfig d price dpct rate appr eq rent rinfl =
        .ok ⟨d, price, dpct, rate, appr, eq, rent, rinfl⟩) ∧
    (∀ cfg, mkSimulationConfig d price dpct rate appr eq rent rinfl =
      .ok cfg → validConfig cfg ∧ cfg = ⟨d, price, dpct, rate, appr, eq, rent, rinfl⟩) := by
  refine ⟨?_, ?_, ?_, ?_, ?_, ?_, ?_⟩
  · intro h1
    rw [mkSimulationConfig, if_pos h1]
  · intro h1 h2
    rw [mkSimulationConfig, if_neg (not_le.mpr h1), if_pos h2]
  · intro h1 h2 h3
    rw [mkSimulationConfig, if_neg (not_le.mpr h1), if_neg (not_le.mpr h2),
      if_pos h3]
  · intro h1 h2 h3 h4 h5
    rw [mkSimulationConfig, if_neg (not_le.mpr h1), if_neg (not_le.mpr h2),
      if_neg (not_not_intro ⟨h3, h4⟩), if_pos h5]
  · intro h1 h2 h3 h4 h5 h6
    rw [mkSimulationConfig, if_neg (not_le.mpr h1), if_neg (not_le.mpr h2),
      if_neg (not_not_intro ⟨h3, h4⟩), if_neg (not_lt.mpr h5), if_pos h6]
  · intro h1 h2 h3 h4 h5 h6
    rw [mkSimulationConfig, if_neg (not_le.mpr h1), if_neg (not_le.mpr h2),
      if_neg (not_not_intro ⟨h3, h4⟩), if_neg (not_lt.mpr h5),
      if_neg (not_le.mpr h6)]
  · intro cfg hok
    rw [mkSimulationConfig] at hok
    split_ifs at hok with h1 h2 h3 h4 h5
    all_goals cases hok
    refine ⟨?_, rfl⟩
    unfold validConfig
    dsimp only
    exact ⟨by omega, by linarith, h3.1, h3.2, by linarith, by linarith⟩

/-- Witness for C8: a fully valid input constructs the object with
exactly the supplied fields, and a nonpositive duration fails with the
duration error even though other fields are also invalid. -/
theorem mkSimulationConfig_validation_witness :
    mkSimulationConfig 30 500000 20 (9/2) 3 7 2000 (3/100) =
      .ok ⟨30, 500000, 20, 9/2, 3, 7, 2000, 3/100⟩ ∧
    mkSimulationConfig (-5) 0 200 (-1) 3 7 (-2) (3/100) =
      .error "duration_years must be positive" := by
  constructor
  · exact (mkSimulationConfig_validation 30 500000 20 (9/2) 3 7 2000
      (3/100)).2.2.2.2.2.1 (by norm_num) (by norm_num) (by norm_num)
      (by norm_num) (by norm_num) (by norm_num)
  · exact (mkSimulationConfig_validation (-5) 0 200 (-1) 3 7 (-2)
      (3/100)).1 (by norm_num)

/-- Claim C1 (the defect that makes the claim fail): the return statement
of `calculate_scenarios` passes the keyword arguments
`monthly_mortgage_payment`, `scenario_c_enabled`, `final_net_rent_savings`
and `breakeven_year_vs_rent_savings` to the `SimulationResults`
constructor, but none of them is a field of the `SimulationResults`
dataclass declared in `models.py`, so the constructor call raises
`TypeError` on every valid config before any result is returned. -/
theorem results_constructor_kwargs_mismatch :
    "monthly_mortgage_payment" ∈ calculateScenariosReturnKwargs ∧
    "monthly_mortgage_payment" ∉ simulationResultsFields ∧
    "scenario_c_enabled" ∉ simulationResultsFields ∧
    "final_net_rent_savings" ∉ simulationResultsFields ∧
    "breakeven_year_vs_rent_savings" ∉ simulationResultsFields ∧
    ¬ (∀ k ∈ calculateScenariosReturnKwargs, k ∈ simulationResultsFields) := by
  refine ⟨?_, ?_, ?_, ?_, ?_, ?_⟩
  · simp [calculateScenariosReturnKwargs]
  · simp [simulationResultsFields]
  · simp [simulationResultsFields]
  · simp [simulationResultsFields]
  · simp [simulationResultsFields]
  · intro h
    have := h "monthly_mortgage_payment" (by simp [calculateScenariosReturnKwargs])
    simp [simulationResultsFields] at this

/-- The concrete zero-mortgage-rate input used to exhibit claim C3's
divergence: one year, price 120000, no down payment, zero rate. -/
def zeroRateConfig : SimulationConfig :=
  ⟨1, 120000, 0, 0, 0, 0, 1000, 3/100⟩

/-- Claim C3 (evaluation at the failing input): with
`mortgage_rate_annual = 0` the engine's guard `monthly_rate > 0` is false
at every month, so the `Mortgage_Balance` column is identically 0 —
whereas the claimed linear schedule `max 0 (loan_amount − payment·i)`
starts at the positive loan amount 120000 at row 0.  (The repository's
own test asserts `initial_balance > final_balance` here, which this
constant-zero column violates.) -/
theorem zeroRate_mortgageBalance_stays_zero :
    validConfig zeroRateConfig ∧
    (∀ i, mortgageBalance zeroRateConfig i = 0) ∧
    (trajectory zeroRateConfig).head?.map Row.mortgageBalance = some 0 ∧
    max 0 (loanAmount zeroRateConfig - monthlyPayment zeroRateConfig * 0)
      = 120000 := by
  refine ⟨?_, ?_, ?_, ?_⟩
  · refine ⟨by norm_num [zeroRateConfig], by norm_num [zeroRateConfig],
      by norm_num [zeroRateConfig], by norm_num [zeroRateConfig],
      by norm_num [zeroRateConfig], by norm_num [zeroRateConfig]⟩
  · intro i
    have hr : monthlyRate zeroRateConfig = 0 := by
      norm_num [monthlyRate, zeroRateConfig]
    rw [mortgageBalance, if_neg]
    rw [hr]
    simp
  · have h12 : nMonths zeroRateConfig = 12 := rfl
    rw [trajectory, h12]
    rw [show (12 + 1) = 12 + 1 from rfl, List.range_succ_eq_map]
    simp only [List.map_cons, List.head?_cons, Option.map_some']
    rw [mkRow]
    simp only []
    rw [mortgageBalance, if_neg]
    norm_num [monthlyRate, zeroRateConfig]
  · have hL : loanAmount zeroRateConfig = 120000 := by
      norm_num [loanAmount, downPayment, zeroRateConfig]
    rw [hL]
    norm_num

/-- Claim C7: the engine's effective monthly rent-inflation rate is
`rent_inflation_rate/100/12` (the fractional config value is divided by
100 a second time), the rent due at month `m` is
`monthly_rent · (1 + that rate)^m`, and the cumulative rent outflow at
month `m` is the sum of the rent due at months `0..m−1`, with row 0
carrying exactly zero cumulative rent. -/
theorem rent_series_spec (cfg : SimulationConfig) (m : ℕ) :
    monthlyRentInflation cfg = cfg.rent_inflation_rate / 100 / 12 ∧
    rentAtMonth cfg m =
      cfg.monthly_rent * (1 + cfg.rent_inflation_rate / 100 / 12) ^ m ∧
    cumRentOutflow cfg m = ∑ k in Finset.range m,
      cfg.monthly_rent * (1 + cfg.rent_inflation_rate / 100 / 12) ^ k ∧
    cumRentOutflow cfg 0 = 0 ∧
    (mkRow cfg 0).outflowRent = 0 := by
  refine ⟨rfl, rfl, ?_, rfl, rfl⟩
  rw [cumRentOutflow_eq_sum]
  exact Finset.sum_congr rfl (fun k _ => rfl)

/-- Claim C9: for every valid config the trajectory has exactly
`duration_years·12 + 1` rows, row 0 sits at year 0, and the last row
sits at year `duration_years` exactly. -/
theorem trajectory_shape (cfg : SimulationConfig)
    (hd : 0 < cfg.duration_years) :
    ((trajectory cfg).length : ℤ) = cfg.duration_years * 12 + 1 ∧
    (trajectory cfg).head?.map Row.year = some 0 ∧
    (trajectory cfg).getLast?.map Row.year = some ((cfg.duration_years : ℚ)) := by
  have hn : (nMonths cfg : ℤ) = cfg.duration_years * 12 := by
    rw [nMonths, Int.toNat_of_nonneg (by positivity)]
  refine ⟨?_, ?_, ?_⟩
  · rw [trajectory, List.length_map, List.length_range]
    push_cast
    omega
  · rw [trajectory, List.range_succ_eq_map]
    simp only [List.map_cons, List.head?_cons, Option.map_some']
    rw [mkRow]
    norm_num
  · rw [trajectory, getLast_map_range, Option.map_some']
    rw [mkRow]
    simp only []
    congr 1
    have : ((nMonths cfg : ℚ)) = ((cfg.duration_years : ℚ)) * 12 := by
      exact_mod_cast congrArg (fun z : ℤ => (z : ℚ)) hn
    rw [this]
    field_simp

/-- The concrete valid config used by the witnesses below: one year,
all-cash purchase, zero rates, rent 1, zero rent inflation. -/
def witnessConfig : SimulationConfig := ⟨1, 120, 100, 0, 0, 0, 1, 0⟩

/-- Witness for C9 at `witnessConfig`: 13 rows, first year 0, last
year 1. -/
theorem trajectory_shape_witness :
    ((trajectory witnessConfig).length : ℤ) = 13 ∧
    (trajectory witnessConfig).head?.map Row.year = some 0 ∧
    (trajectory witnessConfig).getLast?.map Row.year = some 1 := by
  obtain ⟨h1, h2, h3⟩ := trajectory_shape witnessConfig (by norm_num [witnessConfig])
  refine ⟨by rw [h1]; norm_num [witnessConfig], h2, ?_⟩
  rw [h3]
  norm_num [witnessConfig]

/-- The all-cash config of the C4 counterexample: 100% down payment, so
the monthly payment is 0 and Scenario C is disabled. -/
def allCashConfig : SimulationConfig := ⟨30, 500000, 100, 9/2, 3, 7, 2000, 3/100⟩

/-- The loan amount of the all-cash config is 0. -/
theorem allCash_loanAmount : loanAmount allCashConfig = 0 := by
  norm_num [loanAmount, downPayment, allCashConfig]

/-- The monthly payment of the all-cash config is 0 (the annuity branch
is skipped because the loan amount is 0, and the fallback divides 0 by
360). -/
theorem allCash_monthlyPayment : monthlyPayment allCashConfig = 0 := by
  rw [monthlyPayment,
    if_neg (by rw [allCash_loanAmount]; simp),
    if_pos (by decide)]
  rw [allCash_loanAmount]
  norm_num

/-- Claim C4 counterexample: for the all-cash config Scenario C is
disabled (payment 0, rent 2000), yet the Scenario C columns
`Savings_Portfolio_Value` and `Net_Rent_Savings` are still present in
the trajectory: the engine builds the DataFrame with the same column
list on every run, so "all Scenario C fields in the trajectory are
absent" fails. -/
theorem scenarioC_columns_present_when_disabled :
    scenarioCEnabled allCashConfig = false ∧
    "Savings_Portfolio_Value" ∈ trajectoryColumns ∧
    "Net_Rent_Savings" ∈ trajectoryColumns := by
  refine ⟨?_, by simp [trajectoryColumns], by simp [trajectoryColumns]⟩
  rw [scenarioCEnabled, allCash_monthlyPayment]
  simp only [decide_eq_false_iff_not]
  norm_num [allCashConfig]

/-- Claim C4 amended: the Scenario C gate is exactly
"monthly payment > base monthly rent"; the result-level Scenario C
scalars are null precisely when the gate is off (the final net value is
populated exactly when it is on, the breakeven additionally requires the
locator to find a crossing); the trajectory, however, carries the
Scenario C columns on every run. -/
theorem scenarioC_gating (cfg : SimulationConfig) :
    scenarioCEnabled cfg = decide (cfg.monthly_rent < monthlyPayment cfg) ∧
    (finalNetRentSavings cfg).isSome = scenarioCEnabled cfg ∧
    (breakevenYearVsRentSavings cfg).isSome =
      (scenarioCEnabled cfg &&
        (findBreakeven (yearList cfg) (netBuyList cfg)
          (netRentSavingsList cfg)).isSome) ∧
    "Savings_Portfolio_Value" ∈ trajectoryColumns ∧
    "Net_Rent_Savings" ∈ trajectoryColumns := by
  refine ⟨rfl, ?_, ?_, by simp [trajectoryColumns], by simp [trajectoryColumns]⟩
  · rw [finalNetRentSavings]
    cases hsc : scenarioCEnabled cfg <;> simp [hsc]
  · rw [breakevenYearVsRentSavings]
    cases hsc : scenarioCEnabled cfg <;> simp [hsc]

/-- The negative-rent-inflation config of the C5 counterexample:
`rent_inflation_rate = -3600` gives a monthly growth factor of `-2`. -/
def negInflationConfig : SimulationConfig := ⟨1, 100, 0, 0, 0, 0, 1, -3600⟩

/-- Claim C5 counterexample: the negative-inflation config passes
validation (the rent-inflation field is never validated), yet the
trajectory row at month 2 has cumulative rent outflow
`1 + (−2) = −1 < 0`. -/
theorem outflowRent_negative_example :
    validConfig negInflationConfig ∧
    mkRow negInflationConfig 2 ∈ trajectory negInflationConfig ∧
    (mkRow negInflationConfig 2).outflowRent = -1 := by
  refine ⟨?_, ?_, ?_⟩
  · exact ⟨by norm_num [negInflationConfig], by norm_num [negInflationConfig],
      by norm_num [negInflationConfig], by norm_num [negInflationConfig],
      by norm_num [negInflationConfig], by norm_num [negInflationConfig]⟩
  · rw [trajectory]
    exact List.mem_map_of_mem _ (by decide)
  · show cumRentOutflow negInflationConfig 2 = -1
    have h2 : cumRentOutflow negInflationConfig 2 =
        0 + rentAtMonth negInflationConfig 0 + rentAtMonth negInflationConfig 1 :=
      rfl
    rw [h2]
    norm_num [rentAtMonth, monthlyRentInflation, negInflationConfig]

/-- Claim C5 amended: for every valid config, every trajectory row has
`Outflow_Buy ≥ 0`, with no condition on the rent-inflation field; and
provided `rent_inflation_rate ≥ −2400` (monthly growth factor `≥ −1`),
every row also has `Outflow_Rent ≥ 0`.  (The counterexample above shows
the rent bound is needed: below `−2400` a row can go negative.) -/
theorem outflows_nonneg (cfg : SimulationConfig) (hv : validConfig cfg) :
    (∀ row ∈ trajectory cfg, 0 ≤ row.outflowBuy) ∧
    (-2400 ≤ cfg.rent_inflation_rate →
      ∀ row ∈ trajectory cfg, 0 ≤ row.outflowRent) := by
  constructor
  · intro row hrow
    rw [trajectory] at hrow
    obtain ⟨m, -, rfl⟩ := List.mem_map.mp hrow
    show 0 ≤ cumMortgageOutflow cfg m
    rw [cumMortgageOutflow]
    have h1 := downPayment_nonneg cfg hv
    have h2 := monthlyPayment_nonneg cfg hv
    have h3 : (0 : ℚ) ≤ m := by positivity
    have := mul_nonneg h2 h3
    linarith
  · intro hinfl row hrow
    rw [trajectory] at hrow
    obtain ⟨m, -, rfl⟩ := List.mem_map.mp hrow
    show 0 ≤ cumRentOutflow cfg m
    rw [cumRentOutflow_eq_sum]
    have heq : monthlyRentInflation cfg = cfg.rent_inflation_rate / 1200 := by
      rw [monthlyRentInflation]
      ring
    have hq : -1 ≤ 1 + monthlyRentInflation cfg := by
      rw [heq]
      linarith
    have hsum := (geom_sum_range_nonneg hq m).1
    have hr : 0 < cfg.monthly_rent := hv.2.2.2.2.2
    have : 0 ≤ cfg.monthly_rent *
        ∑ k in Finset.range m, (1 + monthlyRentInflation cfg) ^ k :=
      mul_nonneg hr.le hsum
    calc (0 : ℚ) ≤ cfg.monthly_rent *
          ∑ k in Finset.range m, (1 + monthlyRentInflation cfg) ^ k := this
      _ = ∑ k in Finset.range m, rentAtMonth cfg k := by
          rw [Finset.mul_sum]
          exact Finset.sum_congr rfl (fun k _ => rfl)

/-- Witness for the amended C5: the unconditional `Outflow_Buy` half
applied at row 2 of the counterexample's own config (whose
rent-inflation field is `−3600`, far below the rent bound), and the
`Outflow_Rent` half applied at row 2 of `witnessConfig`, whose
rent-inflation field `0` satisfies the bound. -/
theorem outflows_nonneg_witness :
    0 ≤ (mkRow negInflationConfig 2).outflowBuy ∧
      0 ≤ (mkRow witnessConfig 2).outflowRent := by
  have hvn : validConfig negInflationConfig :=
    ⟨by norm_num [negInflationConfig], by norm_num [negInflationConfig],
      by norm_num [negInflationConfig], by norm_num [negInflationConfig],
      by norm_num [negInflationConfig], by norm_num [negInflationConfig]⟩
  have hvw : validConfig witnessConfig :=
    ⟨by norm_num [witnessConfig], by norm_num [witnessConfig],
      by norm_num [witnessConfig], by norm_num [witnessConfig],
      by norm_num [witnessConfig], by norm_num [witnessConfig]⟩
  constructor
  · exact (outflows_nonneg negInflationConfig hvn).1
      (mkRow negInflationConfig 2)
      (by rw [trajectory]; exact List.mem_map_of_mem _ (by decide))
  · exact (outflows_nonneg witnessConfig hvw).2
      (by norm_num [witnessConfig])
      (mkRow witnessConfig 2)
      (by rw [trajectory]; exact List.mem_map_of_mem _ (by decide))
